import Mathlib

/-!
Shallow embedding of the video-generation job-tracking core of the
repository (backend/src/routes/videoGeneration.js,
backend/src/services/replicateService.js, backend/src/config/database.js).

The job store (Supabase table `video_generations`) is modelled as a list of
rows; the external Prediction Provider (Replicate) is modelled as an oracle
of response functions; each Express handler becomes a function from the
store (plus the oracle and the request) to the new store, the HTTP response,
and the list of provider calls it made.
-/

namespace VideoGen

/-- Job status constants (VIDEO_STATUS in config/database.js). -/
inductive VStatus
  | pending
  | processing
  | completed
  | failed
  | cancelled
deriving DecidableEq

/-- A Replicate prediction object, as the handlers consume it:
its id, status string, output URL and error text. -/
structure Prediction where
  id : String
  status : String
  output : Option String
  error : Option String
deriving DecidableEq

/-- One row of the `video_generations` table (the columns the core
handlers read or write). -/
structure GenerationJob where
  id : Nat
  prompt : String
  image_url : Option String
  duration : Nat
  aspect_ratio : String
  resolution : String
  status : VStatus
  external_id : Option String
  video_url : Option String
  thumbnail_url : Option String
  error_message : Option String
  output_data : Option Prediction
  created_at : Nat
  updated_at : Nat
deriving DecidableEq

/-- JavaScript truthiness of a nullable string (`null`, `undefined` and
`""` are falsy). -/
def jsTruthyStr : Option String → Bool
  | none => false
  | some s => s ≠ ""

/-- JavaScript `x || d` for a nullable string `x`. -/
def jsOrStr : Option String → String → String
  | none, d => d
  | some s, d => if s = "" then d else s

/-- JavaScript `x || d` for a nullable number `x` (`0` is falsy). -/
def jsOrNat : Option Nat → Nat → Nat
  | none, d => d
  | some n, d => if n = 0 then d else n

/-- JavaScript `.trim()` as applied by the validation chain: strip
leading and trailing whitespace (written over the character list so that
it evaluates on concrete input). -/
def jsTrim (s : String) : String :=
  ⟨((s.data.dropWhile Char.isWhitespace).reverse.dropWhile Char.isWhitespace).reverse⟩

/-- The job store: the rows of the `video_generations` table. -/
abbrev Store := List GenerationJob

/-- `select('*').eq('id', i).single()`: the row with the given id. -/
def findJob (s : Store) (i : Nat) : Option GenerationJob :=
  s.find? (fun g => g.id = i)

/-- `update(...).eq('id', i)`: apply `f` to every row whose id is `i`. -/
def updateJob (s : Store) (i : Nat) (f : GenerationJob → GenerationJob) : Store :=
  s.map (fun g => if g.id = i then f g else g)

/-- `delete().eq('id', i)`: remove every row whose id is `i`. -/
def deleteJob (s : Store) (i : Nat) : Store :=
  s.filter (fun g => g.id ≠ i)

/-- The input object sent to `client.predictions.create` by
`ReplicateService.startVideoGeneration`. -/
structure ReplicateInput where
  prompt : String
  duration : Nat
  aspect_ratio : String
  resolution : String
  fps : Nat
  camera_fixed : Bool
  image : Option String
deriving DecidableEq

/-- The Prediction Provider, as response functions: `create` starts a
prediction, `get` polls one (`predictions.get`), `cancel` cancels one.
An `Except.error` models a thrown error (network failure, provider-side
error, malformed response). -/
structure ProviderOracle where
  create : ReplicateInput → Except String Prediction
  get : String → Except String Prediction
  cancel : String → Except String Unit

/-- An observable outbound call to the Prediction Provider. -/
inductive ProviderCall
  | create (input : ReplicateInput)
  | get (pid : String)
  | cancel (pid : String)
deriving DecidableEq

/-- The `inputData` object built by the POST /generate route and passed to
`ReplicateService.startVideoGeneration`. -/
structure InputData where
  prompt : String
  image : Option String
  duration : Nat
  aspect_ratio : String
  resolution : String
deriving DecidableEq

/-- The `replicateInput` built inside `startVideoGeneration`: the route
fields with JS `||` defaults applied again, a fixed `fps: 24`, a fixed
`camera_fixed: false`, and the image only when truthy. -/
def buildReplicateInput (d : InputData) : ReplicateInput :=
  { prompt := if d.prompt = "" then "Generate a video" else d.prompt
    duration := if d.duration = 0 then 5 else d.duration
    aspect_ratio := if d.aspect_ratio = "" then "16:9" else d.aspect_ratio
    resolution := if d.resolution = "" then "720p" else d.resolution
    fps := 24
    camera_fixed := false
    image := if jsTruthyStr d.image then d.image else none }

/-- `ReplicateService.startVideoGeneration`: build the replicate input,
call `predictions.create`; on success record the prediction id and set
status `processing` on the row; on a thrown error set status `failed` with
the error message and rethrow. Returns the new store, the propagated
result, and the provider calls made. -/
def startVideoGeneration (o : ProviderOracle) (s : Store) (inputData : InputData)
    (executionId : Nat) : Store × Except String Prediction × List ProviderCall :=
  let input := buildReplicateInput inputData
  match o.create input with
  | .ok pred =>
      (updateJob s executionId
        (fun g => { g with external_id := some pred.id, status := .processing }),
       .ok pred, [.create input])
  | .error e =>
      (updateJob s executionId
        (fun g => { g with status := .failed, error_message := some e }),
       .error e, [.create input])

/-- `ReplicateService.getGeneratedVideo`: poll the prediction; return the
output URL when the prediction succeeded with a truthy output, otherwise
throw. -/
def getGeneratedVideo (o : ProviderOracle) (predictionId : String) :
    Except String String × List ProviderCall :=
  match o.get predictionId with
  | .error e => (.error e, [.get predictionId])
  | .ok prediction =>
      if prediction.status = "succeeded" ∧ jsTruthyStr prediction.output then
        (.ok (prediction.output.getD ""), [.get predictionId])
      else if prediction.status = "failed" then
        (.error ("Generation failed: " ++ jsOrStr prediction.error "Unknown error"),
         [.get predictionId])
      else
        (.error ("Video not ready. Status: " ++ prediction.status), [.get predictionId])

/-- `ReplicateService.cancelGeneration`: try to cancel; a thrown error is
caught and turned into `false` (never rethrown). -/
def cancelGeneration (o : ProviderOracle) (predictionId : String) :
    Bool × List ProviderCall :=
  match o.cancel predictionId with
  | .ok _ => (true, [.cancel predictionId])
  | .error _ => (false, [.cancel predictionId])

/-- SUPPORTED_DURATIONS (config/database.js). -/
def SUPPORTED_DURATIONS : List Nat := [5, 10]

/-- SUPPORTED_ASPECT_RATIOS (config/database.js). -/
def SUPPORTED_ASPECT_RATIOS : List String :=
  ["16:9", "9:16", "1:1", "4:3", "3:4", "21:9", "9:21"]

/-- The body of a POST /generate request. `none` models a missing (or
non-string / non-number) field. -/
structure GenerateRequest where
  prompt : Option String
  image : Option String
  duration : Option Nat
  aspect_ratio : Option String
  resolution : Option String
deriving DecidableEq

/-- Errors from the `body('prompt').isString().trim().isLength(...)` chain:
the prompt must exist and its trimmed length must be between 1 and 1000. -/
def promptErrors (r : GenerateRequest) : List String :=
  match r.prompt with
  | none => ["Prompt must be between 1 and 1000 characters"]
  | some p =>
      if 1 ≤ (jsTrim p).length ∧ (jsTrim p).length ≤ 1000 then []
      else ["Prompt must be between 1 and 1000 characters"]

/-- Errors from `body('duration').optional().isIn(SUPPORTED_DURATIONS)`. -/
def durationErrors (r : GenerateRequest) : List String :=
  match r.duration with
  | none => []
  | some d =>
      if d ∈ SUPPORTED_DURATIONS then []
      else ["Duration must be one of: 5, 10"]

/-- Errors from `body('aspect_ratio').optional().isIn(SUPPORTED_ASPECT_RATIOS)`. -/
def aspectRatioErrors (r : GenerateRequest) : List String :=
  match r.aspect_ratio with
  | none => []
  | some a =>
      if a ∈ SUPPORTED_ASPECT_RATIOS then []
      else ["Aspect ratio must be one of: 16:9, 9:16, 1:1, 4:3, 3:4, 21:9, 9:21"]

/-- Errors from `body('resolution').optional().isIn(['480p','720p','1080p'])`. -/
def resolutionErrors (r : GenerateRequest) : List String :=
  match r.resolution with
  | none => []
  | some v =>
      if v ∈ ["480p", "720p", "1080p"] then []
      else ["Resolution must be 480p, 720p, or 1080p"]

/-- `validationResult(req).array()`: every validator of the
`validateVideoGeneration` chain runs and its errors are collected; the
chain does not stop at the first violation. The `image` validator
(`optional().isString()`) never fails on an optional string field. -/
def validationErrors (r : GenerateRequest) : List String :=
  promptErrors r ++ durationErrors r ++ aspectRatioErrors r ++ resolutionErrors r

/-- Response of POST /generate. -/
inductive GenerateResponse
  | validationFailed (details : List String)
  | created (generation_id : Nat) (status : VStatus)
  | providerFailed (details : String)
deriving DecidableEq

/-- The HTTP status code the route attaches to each generate response. -/
def GenerateResponse.httpStatus : GenerateResponse → Nat
  | .validationFailed _ => 400
  | .created _ _ => 201
  | .providerFailed _ => 500

/-- The row inserted into `video_generations` by POST /generate before the
provider is called: status `pending`, no external id, no result fields,
and the JS `||` defaults for duration, aspect ratio and resolution. -/
def mkPendingRow (newId : Nat) (prompt : String) (image : Option String)
    (duration : Option Nat) (aspect : Option String) (resol : Option String)
    (now : Nat) : GenerationJob :=
  { id := newId
    prompt := prompt
    image_url := image
    duration := jsOrNat duration 5
    aspect_ratio := jsOrStr aspect "16:9"
    resolution := jsOrStr resol "720p"
    status := .pending
    external_id := none
    video_url := none
    thumbnail_url := none
    error_message := none
    output_data := none
    created_at := now
    updated_at := now }

/-- The `inputData` object the route builds from the (sanitized) body and
hands to `startVideoGeneration`. -/
def routeInputData (r : GenerateRequest) : InputData :=
  { prompt := jsTrim (r.prompt.getD "")
    image := r.image
    duration := jsOrNat r.duration 5
    aspect_ratio := jsOrStr r.aspect_ratio "16:9"
    resolution := jsOrStr r.resolution "720p" }

/-- POST /generate: validate (rejecting with the full error list before any
side effect), insert a pending row, start the provider generation; on
acceptance answer 201 with the job id and status `processing`; on a thrown
provider error mark the row failed with the error message (the row is kept)
and answer 500 with the detail. `newId` is the id the database generates
for the inserted row and `now` its creation timestamp. -/
def generateHandler (o : ProviderOracle) (s : Store) (newId : Nat) (now : Nat)
    (r : GenerateRequest) : Store × GenerateResponse × List ProviderCall :=
  let errs := validationErrors r
  if errs = [] then
    let prompt := jsTrim (r.prompt.getD "")
    let s1 := s ++ [mkPendingRow newId prompt r.image r.duration r.aspect_ratio r.resolution now]
    match startVideoGeneration o s1 (routeInputData r) newId with
    | (s2, .ok _, calls) => (s2, .created newId .processing, calls)
    | (s2, .error e, calls) =>
        (updateJob s2 newId (fun g => { g with status := .failed, error_message := some e }),
         .providerFailed e, calls)
  else
    (s, .validationFailed errs, [])

/-- Response of GET /status/:generationId. -/
inductive StatusResponse
  | notFound
  | ok (generation_id : Nat) (status : VStatus) (video_url : Option String)
      (thumbnail_url : Option String) (error_message : Option String)
      (created_at : Nat) (updated_at : Nat)
deriving DecidableEq

/-- The HTTP status code of each status response. -/
def StatusResponse.httpStatus : StatusResponse → Nat
  | .notFound => 404
  | .ok _ _ _ _ _ _ _ => 200

/-- The projection of a row that GET /status returns. -/
def rowProjection (g : GenerationJob) : StatusResponse :=
  .ok g.id g.status g.video_url g.thumbnail_url g.error_message g.created_at g.updated_at

/-- GET /status/:generationId: fetch the row (404 when absent); when it is
`processing` with a truthy external id, reconcile with the provider:
on provider success fetch the video URL and mark the row completed (keeping
the full prediction as `output_data`); on provider failure mark it failed
with the provider error or a generic fallback; on a still-in-flight state
or a thrown provider error leave the row untouched. Always answer with the
row projection. -/
def statusHandler (o : ProviderOracle) (s : Store) (generationId : Nat) :
    Store × StatusResponse × List ProviderCall :=
  match findJob s generationId with
  | none => (s, .notFound, [])
  | some generation =>
      if generation.status = .processing ∧ jsTruthyStr generation.external_id then
        let eid := generation.external_id.getD ""
        match o.get eid with
        | .error _ => (s, rowProjection generation, [.get eid])
        | .ok replicateStatus =>
            if replicateStatus.status = "succeeded" then
              match getGeneratedVideo o eid with
              | (.error _, calls2) =>
                  (s, rowProjection generation, .get eid :: calls2)
              | (.ok videoUrl, calls2) =>
                  (updateJob s generationId (fun g =>
                     { g with status := .completed, video_url := some videoUrl,
                              output_data := some replicateStatus }),
                   rowProjection { generation with
                                     status := .completed, video_url := some videoUrl },
                   .get eid :: calls2)
            else if replicateStatus.status = "failed" then
              (updateJob s generationId (fun g =>
                 { g with status := .failed,
                          error_message := some (jsOrStr replicateStatus.error "Generation failed") }),
               rowProjection { generation with status := .failed },
               [.get eid])
            else
              (s, rowProjection generation, [.get eid])
      else
        (s, rowProjection generation, [])

/-- Response of POST /cancel/:generationId. -/
inductive CancelResponse
  | notFound
  | conflict
  | ok (generation_id : Nat) (status : VStatus)
deriving DecidableEq

/-- The HTTP status code of each cancel response. -/
def CancelResponse.httpStatus : CancelResponse → Nat
  | .notFound => 404
  | .conflict => 400
  | .ok _ _ => 200

/-- POST /cancel/:generationId: 404 when the row is absent; 400 ("Can only
cancel processing generations") when the status is not `processing`;
otherwise try the provider cancel when an external id is truthy (its
failure is swallowed) and set status `cancelled` unconditionally. -/
def cancelHandler (o : ProviderOracle) (s : Store) (generationId : Nat) :
    Store × CancelResponse × List ProviderCall :=
  match findJob s generationId with
  | none => (s, .notFound, [])
  | some generation =>
      if generation.status = .processing then
        let calls :=
          if jsTruthyStr generation.external_id then
            (cancelGeneration o (generation.external_id.getD "")).2
          else []
        (updateJob s generationId (fun g => { g with status := .cancelled }),
         .ok generationId .cancelled, calls)
      else
        (s, .conflict, [])

/-- Response of DELETE /:generationId. -/
inductive DeleteResponse
  | notFound
  | ok (generation_id : Nat)
deriving DecidableEq

/-- The HTTP status code of each delete response. -/
def DeleteResponse.httpStatus : DeleteResponse → Nat
  | .notFound => 404
  | .ok _ => 200

/-- DELETE /:generationId: 404 when the row is absent, otherwise remove the
row and answer 200 with the job id. The handler never talks to the
Prediction Provider. -/
def deleteHandler (s : Store) (generationId : Nat) :
    Store × DeleteResponse × List ProviderCall :=
  match findJob s generationId with
  | none => (s, .notFound, [])
  | some _ => (deleteJob s generationId, .ok generationId, [])

/-- Decimal digit accumulator for `strToNat?`. -/
def parseDigits (acc : Nat) : List Char → Option Nat
  | [] => some acc
  | c :: cs => if c.isDigit then parseDigits (acc * 10 + (c.toNat - 48)) cs else none

/-- JS `ToNumber` restricted to decimal numerals (the well-formed query
strings the pagination claim ranges over), written structurally so that it
evaluates on concrete input. -/
def strToNat? (s : String) : Option Nat :=
  match s.data with
  | [] => none
  | l => parseDigits 0 l

/-- Express parses query parameters as strings; `none` models an absent
parameter, for which the destructuring defaults (`page = 1`, `limit = 10`)
apply as numbers. The numeric value of the `page` parameter. -/
def pageNum : Option String → Nat
  | none => 1
  | some s => (strToNat? s).getD 0

/-- The numeric value of the `limit` parameter. -/
def limitNum : Option String → Nat
  | none => 10
  | some s => (strToNat? s).getD 0

/-- The second argument of `.range(offset, offset + limit - 1)`. When the
`limit` query parameter is present it is a string, so the JS `+` is string
concatenation (`offset + limit` is `String(offset) + limit`) and the
`- 1` coerces the concatenation back to a number. When `limit` is absent it
is the number 10 and the arithmetic is numeric. -/
def rangeTo (offset : Nat) (limit : Option String) : Nat :=
  match limit with
  | none => offset + 10 - 1
  | some s => ((strToNat? (toString offset ++ s)).getD 0) - 1

/-- `.order('created_at', { ascending: false })`: rows sorted by creation
time, newest first. -/
def byCreatedDesc (a b : GenerationJob) : Bool := b.created_at ≤ a.created_at

/-- The ordering of the table that GET /list reads. -/
def sortedJobs (s : Store) : List GenerationJob := s.mergeSort byCreatedDesc

/-- Response of GET /list. -/
structure ListResponse where
  generations : List GenerationJob
  page : Nat
  limit : Nat
  total : Nat
  pages : Nat
deriving DecidableEq

/-- GET /list: `offset = (page - 1) * limit` (numeric, both operators
coerce), rows from the inclusive range `[offset, rangeTo offset limit]` of
the descending ordering, and pagination metadata `parseInt(page)`,
`parseInt(limit)`, the exact row count and `Math.ceil(count / limit)`
(written for a positive numeric limit). -/
def listHandler (s : Store) (page limit : Option String) : ListResponse :=
  let pageN := pageNum page
  let limitN := limitNum limit
  let offset := (pageN - 1) * limitN
  let upper := rangeTo offset limit
  { generations := ((sortedJobs s).drop offset).take (upper + 1 - offset)
    page := pageN
    limit := limitN
    total := s.length
    pages := (s.length + limitN - 1) / limitN }

/-- The public operations on the job store; each carries the oracle and
request data its handler consumes. -/
inductive Op
  | generate (o : ProviderOracle) (newId : Nat) (now : Nat) (r : GenerateRequest)
  | status (o : ProviderOracle) (i : Nat)
  | cancel (o : ProviderOracle) (i : Nat)
  | delete (i : Nat)
  | list (page limit : Option String)

/-- The store after one public operation. -/
def stepOp (s : Store) : Op → Store
  | .generate o newId now r => (generateHandler o s newId now r).1
  | .status o i => (statusHandler o s i).1
  | .cancel o i => (cancelHandler o s i).1
  | .delete i => (deleteHandler s i).1
  | .list _ _ => s

/-- Wellformedness of an operation against a store: the id the database
generates for an inserted row is fresh. -/
def FreshFor (s : Store) : Op → Prop
  | .generate _ newId _ _ => findJob s newId = none
  | _ => True

/-- Stores reachable from the empty table through the public operations. -/
inductive Reachable : Store → Prop
  | init : Reachable []
  | step (s : Store) (op : Op) : Reachable s → FreshFor s op → Reachable (stepOp s op)

/-- A status is terminal when it is completed, failed or cancelled. -/
def terminalStatus (st : VStatus) : Prop :=
  st = .completed ∨ st = .failed ∨ st = .cancelled

/-- The external-correlation-id invariant of §3 of the spec: a non-null
external id means the row has left `pending`, and a row in `processing`,
`completed` or `cancelled` (the statuses only reachable through successful
provider acceptance) carries a non-null external id. `failed` rows may or
may not carry one, according to whether they failed after or at
acceptance. -/
def ExtInv (s : Store) : Prop :=
  ∀ g ∈ s,
    (g.external_id.isSome = true → g.status ≠ .pending) ∧
    ((g.status = .processing ∨ g.status = .completed ∨ g.status = .cancelled) →
      g.external_id.isSome = true)

/-- Store wellformedness: primary keys are unique and the external-id
invariant holds. -/
def StoreInv (s : Store) : Prop :=
  (s.map (fun g => g.id)).Nodup ∧ ExtInv s

theorem findJob_mem {s : Store} {i : Nat} {g : GenerationJob}
    (h : findJob s i = some g) : g ∈ s ∧ g.id = i := by
  refine ⟨List.mem_of_find?_eq_some h, ?_⟩
  have := List.find?_some h
  simpa using this

theorem findJob_eq_none_iff {s : Store} {i : Nat} :
    findJob s i = none ↔ ∀ g ∈ s, g.id ≠ i := by
  unfold findJob
  rw [List.find?_eq_none]
  simp

theorem findJob_unique {s : Store} {i : Nat} {g g' : GenerationJob}
    (hN : (s.map (fun x => x.id)).Nodup)
    (hfind : findJob s i = some g) (hg' : g' ∈ s) (hid : g'.id = i) : g' = g := by
  obtain ⟨hmem, hgid⟩ := findJob_mem hfind
  exact List.inj_on_of_nodup_map hN hg' hmem (by rw [hid, hgid])

theorem updateJob_map_id {s : Store} {i : Nat} {f : GenerationJob → GenerationJob}
    (hf : ∀ g, (f g).id = g.id) :
    (updateJob s i f).map (fun g => g.id) = s.map (fun g => g.id) := by
  unfold updateJob
  rw [List.map_map]
  refine List.map_congr_left ?_
  intro a _
  by_cases h : a.id = i <;> simp [h, hf]

theorem mem_updateJob {s : Store} {i : Nat} {f : GenerationJob → GenerationJob}
    {g' : GenerationJob} (h : g' ∈ updateJob s i f) :
    ∃ g ∈ s, g' = if g.id = i then f g else g := by
  unfold updateJob at h
  obtain ⟨a, ha, rfl⟩ := List.mem_map.mp h
  exact ⟨a, ha, rfl⟩

theorem updateJob_of_not_found {s : Store} {i : Nat}
    {f : GenerationJob → GenerationJob} (h : findJob s i = none) :
    updateJob s i f = s := by
  have h' := findJob_eq_none_iff.mp h
  unfold updateJob
  have : ∀ a ∈ s, (if a.id = i then f a else a) = a := by
    intro a ha
    simp [h' a ha]
  rw [List.map_congr_left this]
  exact List.map_id' s

theorem updateJob_append {s t : Store} {i : Nat}
    {f : GenerationJob → GenerationJob} :
    updateJob (s ++ t) i f = updateJob s i f ++ updateJob t i f := by
  unfold updateJob
  exact List.map_append _ _ _

theorem mem_deleteJob {s : Store} {i : Nat} {g' : GenerationJob}
    (h : g' ∈ deleteJob s i) : g' ∈ s ∧ g'.id ≠ i := by
  unfold deleteJob at h
  have := List.mem_filter.mp h
  refine ⟨this.1, by simpa using this.2⟩

/-- On a valid body and an accepting provider, POST /generate appends the
pending row and flips it to `processing` with the prediction id recorded,
answering 201 and making exactly one provider call. -/
theorem generateHandler_accept {o : ProviderOracle} {s : Store} {newId now : Nat}
    {r : GenerateRequest} {pred : Prediction}
    (hv : validationErrors r = [])
    (hfresh : findJob s newId = none)
    (hacc : o.create (buildReplicateInput (routeInputData r)) = .ok pred) :
    generateHandler o s newId now r =
      (s ++ [{ mkPendingRow newId (jsTrim (r.prompt.getD "")) r.image r.duration
                 r.aspect_ratio r.resolution now with
               external_id := some pred.id, status := .processing }],
       .created newId .processing,
       [.create (buildReplicateInput (routeInputData r))]) := by
  simp only [generateHandler, startVideoGeneration, hv, hacc, updateJob_append]
  rw [updateJob_of_not_found hfresh]
  simp [updateJob, mkPendingRow]

/-- On a valid body and a rejecting provider, POST /generate keeps the
appended row, marks it failed with the thrown message, and answers 500. -/
theorem generateHandler_reject {o : ProviderOracle} {s : Store} {newId now : Nat}
    {r : GenerateRequest} {e : String}
    (hv : validationErrors r = [])
    (hfresh : findJob s newId = none)
    (hrej : o.create (buildReplicateInput (routeInputData r)) = .error e) :
    generateHandler o s newId now r =
      (s ++ [{ mkPendingRow newId (jsTrim (r.prompt.getD "")) r.image r.duration
                 r.aspect_ratio r.resolution now with
               status := .failed, error_message := some e }],
       .providerFailed e,
       [.create (buildReplicateInput (routeInputData r))]) := by
  simp only [generateHandler, startVideoGeneration, hv, hrej, updateJob_append]
  rw [updateJob_of_not_found hfresh, updateJob_of_not_found hfresh]
  simp [updateJob, mkPendingRow]

/-- On an invalid body, POST /generate rejects with the full error list and
has no side effect. -/
theorem generateHandler_invalid {o : ProviderOracle} {s : Store} {newId now : Nat}
    {r : GenerateRequest}
    (hv : validationErrors r ≠ []) :
    generateHandler o s newId now r = (s, .validationFailed (validationErrors r), []) := by
  simp [generateHandler, hv]

/-- GET /status on a missing row answers 404 and does nothing. -/
theorem statusHandler_not_found {o : ProviderOracle} {s : Store} {i : Nat}
    (h : findJob s i = none) :
    statusHandler o s i = (s, .notFound, []) := by
  simp [statusHandler, h]

/-- GET /status on a row that is not `processing`, or has no truthy
external id, answers the stored row verbatim with no provider call. -/
theorem statusHandler_no_call {o : ProviderOracle} {s : Store} {i : Nat}
    {g : GenerationJob} (hfind : findJob s i = some g)
    (h : g.status ≠ .processing ∨ jsTruthyStr g.external_id = false) :
    statusHandler o s i = (s, rowProjection g, []) := by
  have hcond : ¬(g.status = VStatus.processing ∧ jsTruthyStr g.external_id = true) := by
    rcases h with h | h
    · exact fun hc => h hc.1
    · intro hc
      rw [h] at hc
      exact Bool.false_ne_true hc.2
  simp [statusHandler, hfind, hcond]

/-- GET /status on a processing row whose provider poll throws leaves the
store untouched and answers the last known row. -/
theorem statusHandler_provider_error {o : ProviderOracle} {s : Store} {i : Nat}
    {g : GenerationJob} {e : String} (hfind : findJob s i = some g)
    (hproc : g.status = .processing) (hext : jsTruthyStr g.external_id = true)
    (herr : o.get (g.external_id.getD "") = .error e) :
    statusHandler o s i = (s, rowProjection g, [.get (g.external_id.getD "")]) := by
  simp [statusHandler, hfind, hproc, hext, herr]

/-- GET /status on a processing row whose provider poll reports success
with a truthy output URL marks the row completed with that URL and the
full prediction payload. -/
theorem statusHandler_success {o : ProviderOracle} {s : Store} {i : Nat}
    {g : GenerationJob} {pred : Prediction} {url : String}
    (hfind : findJob s i = some g)
    (hproc : g.status = .processing) (hext : jsTruthyStr g.external_id = true)
    (hget : o.get (g.external_id.getD "") = .ok pred)
    (hsucc : pred.status = "succeeded") (hout : pred.output = some url)
    (hurl : url ≠ "") :
    statusHandler o s i =
      (updateJob s i (fun x =>
         { x with status := .completed, video_url := some url,
                  output_data := some pred }),
       rowProjection { g with status := .completed, video_url := some url },
       [.get (g.external_id.getD ""), .get (g.external_id.getD "")]) := by
  have hv : getGeneratedVideo o (g.external_id.getD "") =
      (.ok url, [.get (g.external_id.getD "")]) := by
    simp [getGeneratedVideo, hget, hsucc, hout, jsTruthyStr, hurl]
  simp [statusHandler, hfind, hproc, hext, hget, hsucc, hv]

/-- GET /status on a processing row whose provider poll reports failure
marks the row failed with the provider error (or the generic fallback);
the response carries the new status but the previously stored error
message. -/
theorem statusHandler_provider_failed {o : ProviderOracle} {s : Store} {i : Nat}
    {g : GenerationJob} {pred : Prediction}
    (hfind : findJob s i = some g)
    (hproc : g.status = .processing) (hext : jsTruthyStr g.external_id = true)
    (hget : o.get (g.external_id.getD "") = .ok pred)
    (hfail : pred.status = "failed") :
    statusHandler o s i =
      (updateJob s i (fun x =>
         { x with status := .failed,
                  error_message := some (jsOrStr pred.error "Generation failed") }),
       rowProjection { g with status := .failed },
       [.get (g.external_id.getD "")]) := by
  simp [statusHandler, hfind, hproc, hext, hget, hfail]

/-- The store side of GET /status: either it is untouched, or the row at
the polled id was `processing` with a truthy external id and was updated
to `completed` (with a video URL and payload) or to `failed` (with an
error message). -/
theorem statusHandler_store_shape (o : ProviderOracle) (s : Store) (j : Nat) :
    (statusHandler o s j).1 = s ∨
    ∃ gj, findJob s j = some gj ∧ gj.status = .processing ∧
      jsTruthyStr gj.external_id = true ∧
      ((∃ pred url, (statusHandler o s j).1 =
          updateJob s j (fun x =>
            { x with status := .completed, video_url := some url,
                     output_data := some pred })) ∨
       (∃ msg, (statusHandler o s j).1 =
          updateJob s j (fun x =>
            { x with status := .failed, error_message := some msg }))) := by
  unfold statusHandler
  cases hfind : findJob s j with
  | none => exact Or.inl rfl
  | some gj =>
      dsimp only
      by_cases hc : gj.status = VStatus.processing ∧ jsTruthyStr gj.external_id = true
      · rw [if_pos hc]
        cases hget : o.get (gj.external_id.getD "") with
        | error e => exact Or.inl rfl
        | ok pred =>
            dsimp only
            by_cases hs : pred.status = "succeeded"
            · rw [if_pos hs]
              cases hvid : getGeneratedVideo o (gj.external_id.getD "") with
              | mk res calls =>
                  cases res with
                  | error e => exact Or.inl rfl
                  | ok url =>
                      exact Or.inr ⟨gj, rfl, hc.1, hc.2,
                        Or.inl ⟨pred, url, rfl⟩⟩
            · rw [if_neg hs]
              by_cases hf : pred.status = "failed"
              · rw [if_pos hf]
                exact Or.inr ⟨gj, rfl, hc.1, hc.2,
                  Or.inr ⟨jsOrStr pred.error "Generation failed", rfl⟩⟩
              · rw [if_neg hf]
                exact Or.inl rfl
      · rw [if_neg hc]
        exact Or.inl rfl

/-- POST /cancel on a missing row answers 404 and does nothing. -/
theorem cancelHandler_not_found {o : ProviderOracle} {s : Store} {i : Nat}
    (h : findJob s i = none) :
    cancelHandler o s i = (s, .notFound, []) := by
  simp [cancelHandler, h]

/-- POST /cancel on a row that is not `processing` answers 400 and does
not mutate the row. -/
theorem cancelHandler_conflict {o : ProviderOracle} {s : Store} {i : Nat}
    {g : GenerationJob} (hfind : findJob s i = some g)
    (h : g.status ≠ .processing) :
    cancelHandler o s i = (s, .conflict, []) := by
  simp [cancelHandler, hfind, h]

/-- POST /cancel on a processing row sets status `cancelled`
unconditionally (for every provider outcome) and answers 200 with the job
id and the new status. -/
theorem cancelHandler_processing {o : ProviderOracle} {s : Store} {i : Nat}
    {g : GenerationJob} (hfind : findJob s i = some g)
    (h : g.status = .processing) :
    (cancelHandler o s i).1 = updateJob s i (fun x => { x with status := .cancelled })
    ∧ (cancelHandler o s i).2.1 = .ok i .cancelled := by
  constructor <;> simp [cancelHandler, hfind, h]

/-- The store side of POST /cancel: untouched, or the row at the target id
was `processing` and was set to `cancelled`. -/
theorem cancelHandler_store_shape (o : ProviderOracle) (s : Store) (j : Nat) :
    (cancelHandler o s j).1 = s ∨
    ∃ gj, findJob s j = some gj ∧ gj.status = .processing ∧
      (cancelHandler o s j).1 = updateJob s j (fun x => { x with status := .cancelled }) := by
  cases hfind : findJob s j with
  | none => rw [(cancelHandler_not_found hfind : cancelHandler o s j = _)]; exact Or.inl rfl
  | some gj =>
      by_cases h : gj.status = VStatus.processing
      · exact Or.inr ⟨gj, rfl, h, (cancelHandler_processing hfind h).1⟩
      · rw [(cancelHandler_conflict hfind h : cancelHandler o s j = _)]
        exact Or.inl rfl

/-- DELETE on a missing row answers 404 and does nothing. -/
theorem deleteHandler_not_found {s : Store} {i : Nat}
    (h : findJob s i = none) :
    deleteHandler s i = (s, .notFound, []) := by
  simp [deleteHandler, h]

/-- DELETE on an existing row removes it and answers 200 with the job id,
making no provider call. -/
theorem deleteHandler_found {s : Store} {i : Nat} {g : GenerationJob}
    (hfind : findJob s i = some g) :
    deleteHandler s i = (deleteJob s i, .ok i, []) := by
  simp [deleteHandler, hfind]

/-- Every row surviving a DELETE was already in the store. -/
theorem deleteHandler_store_sub {s : Store} {j : Nat} {g' : GenerationJob}
    (h : g' ∈ (deleteHandler s j).1) : g' ∈ s := by
  unfold deleteHandler at h
  cases hfind : findJob s j with
  | none => rw [hfind] at h; exact h
  | some g => rw [hfind] at h; exact (mem_deleteJob h).1

/-- The store side of POST /generate under a fresh id: untouched, or one
row appended whose id is the fresh id and whose status and external id are
`processing` with the prediction id, or `failed` with no external id. -/
theorem generateHandler_store_shape (o : ProviderOracle) (s : Store)
    (newId now : Nat) (r : GenerateRequest) (hfresh : findJob s newId = none) :
    (generateHandler o s newId now r).1 = s ∨
    ∃ row, row.id = newId ∧
      ((row.status = .processing ∧ row.external_id.isSome = true) ∨
       (row.status = .failed ∧ row.external_id = none)) ∧
      (generateHandler o s newId now r).1 = s ++ [row] := by
  by_cases hv : validationErrors r = []
  · cases hacc : o.create (buildReplicateInput (routeInputData r)) with
    | ok pred =>
        rw [(generateHandler_accept hv hfresh hacc : generateHandler o s newId now r = _)]
        refine Or.inr ⟨_, rfl, ?_, rfl⟩
        exact Or.inl ⟨rfl, rfl⟩
    | error e =>
        rw [(generateHandler_reject hv hfresh hacc : generateHandler o s newId now r = _)]
        refine Or.inr ⟨_, rfl, ?_, rfl⟩
        exact Or.inr ⟨rfl, rfl⟩
  · rw [(generateHandler_invalid hv : generateHandler o s newId now r = _)]
    exact Or.inl rfl

theorem jsTruthyStr_isSome {x : Option String} (h : jsTruthyStr x = true) :
    x.isSome = true := by
  cases x with
  | none => simp [jsTruthyStr] at h
  | some s => rfl

theorem nodup_updateJob {s : Store} {i : Nat} {f : GenerationJob → GenerationJob}
    (hf : ∀ g, (f g).id = g.id) (hN : (s.map (fun x => x.id)).Nodup) :
    ((updateJob s i f).map (fun x => x.id)).Nodup := by
  rw [updateJob_map_id hf]
  exact hN

theorem ExtInv_updateJob_found {s : Store} {i : Nat} {g : GenerationJob}
    {f : GenerationJob → GenerationJob}
    (hN : (s.map (fun x => x.id)).Nodup)
    (hInv : ExtInv s) (hfind : findJob s i = some g)
    (hf : ((f g).external_id.isSome = true → (f g).status ≠ .pending) ∧
          (((f g).status = .processing ∨ (f g).status = .completed ∨
            (f g).status = .cancelled) → (f g).external_id.isSome = true)) :
    ExtInv (updateJob s i f) := by
  intro g' hg'
  obtain ⟨h, hh, heq⟩ := mem_updateJob hg'
  subst heq
  by_cases hid : h.id = i
  · have hhg : h = g := findJob_unique hN hfind hh hid
    subst hhg
    rw [if_pos hid]
    exact hf
  · rw [if_neg hid]
    exact hInv h hh

theorem StoreInv_statusHandler {o : ProviderOracle} {s : Store} {j : Nat}
    (h : StoreInv s) : StoreInv (statusHandler o s j).1 := by
  obtain ⟨hN, hInv⟩ := h
  rcases statusHandler_store_shape o s j with hs | ⟨gj, hfind, hproc, hext, hupd⟩
  · rw [hs]; exact ⟨hN, hInv⟩
  · have hsome := jsTruthyStr_isSome hext
    rcases hupd with ⟨pred, url, hupd⟩ | ⟨msg, hupd⟩
    · rw [hupd]
      refine ⟨nodup_updateJob (fun g => rfl) hN, ?_⟩
      refine ExtInv_updateJob_found hN hInv hfind ⟨?_, ?_⟩
      · intro _
        simp
      · intro _
        simpa using hsome
    · rw [hupd]
      refine ⟨nodup_updateJob (fun g => rfl) hN, ?_⟩
      refine ExtInv_updateJob_found hN hInv hfind ⟨?_, ?_⟩
      · intro _
        simp
      · intro hcon
        simp at hcon

theorem StoreInv_cancelHandler {o : ProviderOracle} {s : Store} {j : Nat}
    (h : StoreInv s) : StoreInv (cancelHandler o s j).1 := by
  obtain ⟨hN, hInv⟩ := h
  rcases cancelHandler_store_shape o s j with hs | ⟨gj, hfind, hproc, hupd⟩
  · rw [hs]; exact ⟨hN, hInv⟩
  · rw [hupd]
    refine ⟨nodup_updateJob (fun g => rfl) hN, ?_⟩
    refine ExtInv_updateJob_found hN hInv hfind ⟨?_, ?_⟩
    · intro _
      simp
    · intro _
      have := (hInv gj (findJob_mem hfind).1).2 (Or.inl hproc)
      simpa using this

theorem StoreInv_deleteHandler {s : Store} {j : Nat}
    (h : StoreInv s) : StoreInv (deleteHandler s j).1 := by
  obtain ⟨hN, hInv⟩ := h
  constructor
  · unfold deleteHandler
    cases hfind : findJob s j with
    | none => exact hN
    | some g =>
        exact ((List.filter_sublist s).map (fun x => x.id)).nodup hN
  · intro g' hg'
    exact hInv g' (deleteHandler_store_sub hg')

theorem StoreInv_generateHandler {o : ProviderOracle} {s : Store}
    {newId now : Nat} {r : GenerateRequest}
    (h : StoreInv s) (hfresh : findJob s newId = none) :
    StoreInv (generateHandler o s newId now r).1 := by
  obtain ⟨hN, hInv⟩ := h
  rcases generateHandler_store_shape o s newId now r hfresh with hs | ⟨row, hid, hrow, hupd⟩
  · rw [hs]; exact ⟨hN, hInv⟩
  · rw [hupd]
    constructor
    · rw [List.map_append]
      rw [List.nodup_append]
      refine ⟨hN, by simp, ?_⟩
      intro a ha hb
      simp at hb
      obtain ⟨ga, hga, hgaid⟩ := List.mem_map.mp ha
      rw [hb, hid] at hgaid
      exact findJob_eq_none_iff.mp hfresh ga hga hgaid
    · intro g' hg'
      rcases List.mem_append.mp hg' with hmem | hmem
      · exact hInv g' hmem
      · have : g' = row := by simpa using hmem
        subst this
        rcases hrow with ⟨hst, hex⟩ | ⟨hst, hex⟩
        · exact ⟨fun _ => by rw [hst]; simp, fun _ => hex⟩
        · refine ⟨fun hcon => by rw [hst]; simp, fun hcon => ?_⟩
          rw [hst] at hcon
          rcases hcon with hcon | hcon | hcon <;> simp at hcon

/-- Each public operation preserves store wellformedness. -/
theorem stepOp_StoreInv {s : Store} {op : Op}
    (h : StoreInv s) (hf : FreshFor s op) : StoreInv (stepOp s op) := by
  cases op with
  | generate o newId now r => exact StoreInv_generateHandler h hf
  | status o i => exact StoreInv_statusHandler h
  | cancel o i => exact StoreInv_cancelHandler h
  | delete i => exact StoreInv_deleteHandler h
  | list page limit => exact h

/-- Every reachable store is wellformed: unique ids and the external-id
invariant. -/
theorem reachable_StoreInv {s : Store} (h : Reachable s) : StoreInv s := by
  induction h with
  | init => exact ⟨List.nodup_nil, fun g hg => absurd hg (List.not_mem_nil g)⟩
  | step s op _ hfresh ih => exact stepOp_StoreInv ih hfresh

/-- A job whose status is not `processing` is not touched by any public
operation: every row carrying its id after the operation is the row
itself. -/
theorem stepOp_frozen {s : Store} {op : Op} {i : Nat} {g : GenerationJob}
    (hN : (s.map (fun x => x.id)).Nodup)
    (hfind : findJob s i = some g)
    (hng : g.status ≠ .processing)
    (hf : FreshFor s op) :
    ∀ g' ∈ stepOp s op, g'.id = i → g' = g := by
  have huniq : ∀ g' ∈ s, g'.id = i → g' = g := fun g' hg' hid =>
    findJob_unique hN hfind hg' hid
  have hupdfrozen : ∀ (j : Nat) (f : GenerationJob → GenerationJob),
      (∀ x, (f x).id = x.id) →
      (∀ gj, findJob s j = some gj → gj.status = .processing) →
      ∀ g' ∈ updateJob s j f, g'.id = i → g' = g := by
    intro j f hfid hjproc g' hg' hid
    obtain ⟨h, hh, heq⟩ := mem_updateJob hg'
    subst heq
    by_cases hj : h.id = j
    · rw [if_pos hj] at hid ⊢
      rw [hfid h, hj] at hid
      have hgproc : g.status = .processing := by
        apply hjproc
        rw [hid]
        exact hfind
      exact absurd hgproc hng
    · rw [if_neg hj] at hid ⊢
      exact huniq h hh hid
  cases op with
  | generate o newId now r =>
      rcases generateHandler_store_shape o s newId now r hf with hs | ⟨row, hid, _, hupd⟩
      · intro g' hg' hgi
        rw [(by exact hs : stepOp s (.generate o newId now r) = s)] at hg'
        exact huniq g' hg' hgi
      · intro g' hg' hgi
        rw [(by exact hupd : stepOp s (.generate o newId now r) = s ++ [row])] at hg'
        rcases List.mem_append.mp hg' with hmem | hmem
        · exact huniq g' hmem hgi
        · have hrow : g' = row := by simpa using hmem
          subst hrow
          have hfr : findJob s newId = none := hf
          rw [hid] at hgi
          subst hgi
          rw [hfr] at hfind
          exact absurd hfind (by simp)
  | status o j =>
      rcases statusHandler_store_shape o s j with hs | ⟨gj, hfindj, hproc, _, hupd⟩
      · intro g' hg' hgi
        rw [(by exact hs : stepOp s (.status o j) = s)] at hg'
        exact huniq g' hg' hgi
      · have hjproc : ∀ x, findJob s j = some x → x.status = .processing := by
          intro x hx
          rw [hfindj] at hx
          cases hx
          exact hproc
        rcases hupd with ⟨pred, url, hupd⟩ | ⟨msg, hupd⟩
        · intro g' hg' hgi
          rw [(by exact hupd : stepOp s (.status o j) = _)] at hg'
          refine hupdfrozen j _ ?_ hjproc g' hg' hgi
          intro x
          rfl
        · intro g' hg' hgi
          rw [(by exact hupd : stepOp s (.status o j) = _)] at hg'
          refine hupdfrozen j _ ?_ hjproc g' hg' hgi
          intro x
          rfl
  | cancel o j =>
      rcases cancelHandler_store_shape o s j with hs | ⟨gj, hfindj, hproc, hupd⟩
      · intro g' hg' hgi
        rw [(by exact hs : stepOp s (.cancel o j) = s)] at hg'
        exact huniq g' hg' hgi
      · have hjproc : ∀ x, findJob s j = some x → x.status = .processing := by
          intro x hx
          rw [hfindj] at hx
          cases hx
          exact hproc
        intro g' hg' hgi
        rw [(by exact hupd : stepOp s (.cancel o j) = _)] at hg'
        refine hupdfrozen j _ ?_ hjproc g' hg' hgi
        intro x
        rfl
  | delete j =>
      intro g' hg' hgi
      exact huniq g' (deleteHandler_store_sub hg') hgi
  | list page limit =>
      intro g' hg' hgi
      exact huniq g' hg' hgi

theorem findJob_append_fresh {s : Store} {row : GenerationJob} {i : Nat}
    (hfresh : findJob s i = none) (hid : row.id = i) :
    findJob (s ++ [row]) i = some row := by
  unfold findJob at *
  rw [List.find?_append, hfresh]
  simp [hid]

theorem findJob_updateJob {s : Store} {i : Nat}
    {f : GenerationJob → GenerationJob} (hfid : ∀ x, (f x).id = x.id) :
    findJob (updateJob s i f) i =
      Option.map (fun g => if g.id = i then f g else g) (findJob s i) := by
  unfold findJob updateJob
  induction s with
  | nil => rfl
  | cons a t ih =>
      by_cases ha : a.id = i
      · rw [List.map_cons, List.find?_cons_of_pos, List.find?_cons_of_pos]
        · simp
        · simp [ha]
        · simp [ha, hfid]
      · rw [List.map_cons, List.find?_cons_of_neg, List.find?_cons_of_neg]
        · exact ih
        · simp [ha]
        · simp [ha, hfid]

theorem validationErrors_nil_parts {r : GenerateRequest}
    (hv : validationErrors r = []) :
    promptErrors r = [] ∧ durationErrors r = [] ∧
    aspectRatioErrors r = [] ∧ resolutionErrors r = [] := by
  unfold validationErrors at hv
  rcases List.append_eq_nil.mp hv with ⟨h12a, h4⟩
  rcases List.append_eq_nil.mp h12a with ⟨h12, h3⟩
  rcases List.append_eq_nil.mp h12 with ⟨h1, h2⟩
  exact ⟨h1, h2, h3, h4⟩

theorem valid_duration {r : GenerateRequest} (hv : validationErrors r = []) :
    jsOrNat r.duration 5 = (match r.duration with | none => 5 | some d => d) := by
  have hd := (validationErrors_nil_parts hv).2.1
  unfold durationErrors at hd
  cases hr : r.duration with
  | none => rfl
  | some d =>
      rw [hr] at hd
      by_cases hmem : d ∈ SUPPORTED_DURATIONS
      · have hd0 : d ≠ 0 := by
          rcases (by simpa [SUPPORTED_DURATIONS] using hmem : d = 5 ∨ d = 10) with h | h <;>
            simp [h]
        simp [jsOrNat, hd0]
      · simp [hmem] at hd

theorem valid_aspect_ratio {r : GenerateRequest} (hv : validationErrors r = []) :
    jsOrStr r.aspect_ratio "16:9" =
      (match r.aspect_ratio with | none => "16:9" | some a => a) := by
  have ha := (validationErrors_nil_parts hv).2.2.1
  unfold aspectRatioErrors at ha
  cases hr : r.aspect_ratio with
  | none => rfl
  | some a =>
      rw [hr] at ha
      by_cases hmem : a ∈ SUPPORTED_ASPECT_RATIOS
      · have ha0 : a ≠ "" := by
          intro h0
          rw [h0] at hmem
          simp [SUPPORTED_ASPECT_RATIOS] at hmem
        simp [jsOrStr, ha0]
      · simp [hmem] at ha

theorem valid_resolution {r : GenerateRequest} (hv : validationErrors r = []) :
    jsOrStr r.resolution "720p" =
      (match r.resolution with | none => "720p" | some v => v) := by
  have hr' := (validationErrors_nil_parts hv).2.2.2
  unfold resolutionErrors at hr'
  cases hr : r.resolution with
  | none => rfl
  | some v =>
      rw [hr] at hr'
      by_cases hmem : v ∈ ["480p", "720p", "1080p"]
      · have hv0 : v ≠ "" := by
          intro h0
          rw [h0] at hmem
          simp at hmem
        simp [jsOrStr, hv0]
      · simp [hmem] at hr'

/-- A provider that accepts submissions and reports success with a video
URL, used as concrete witness input. -/
def acceptOracle : ProviderOracle :=
  { create := fun _ => .ok { id := "pred-1", status := "starting",
                             output := none, error := none }
    get := fun _ => .ok { id := "pred-1", status := "succeeded",
                          output := some "https://x/video.mp4", error := none }
    cancel := fun _ => .ok () }

/-- A provider whose every call throws, used as concrete witness input. -/
def failOracle : ProviderOracle :=
  { create := fun _ => .error "provider unreachable"
    get := fun _ => .error "provider unreachable"
    cancel := fun _ => .error "provider unreachable" }

/-- A concrete completed row, used as concrete witness input. -/
def rowCompleted : GenerationJob :=
  { id := 1, prompt := "A cat in the rain", image_url := none, duration := 5,
    aspect_ratio := "16:9", resolution := "720p", status := .completed,
    external_id := some "pred-1", video_url := some "https://x/video.mp4",
    thumbnail_url := none, error_message := none, output_data := none,
    created_at := 7, updated_at := 9 }

/-- A concrete processing row, used as concrete witness input. -/
def rowProcessing : GenerationJob :=
  { id := 1, prompt := "A cat in the rain", image_url := none, duration := 5,
    aspect_ratio := "16:9", resolution := "720p", status := .processing,
    external_id := some "pred-1", video_url := none,
    thumbnail_url := none, error_message := none, output_data := none,
    created_at := 7, updated_at := 9 }

/-- A concrete valid request, used as concrete witness input. -/
def reqValid : GenerateRequest :=
  { prompt := some "A cat in the rain", image := none,
    duration := some 10, aspect_ratio := some "9:16", resolution := some "1080p" }

/-- A concrete invalid request (missing prompt, bad duration, bad aspect
ratio, bad resolution), used as concrete witness input. -/
def reqInvalid : GenerateRequest :=
  { prompt := none, image := none,
    duration := some 7, aspect_ratio := some "2:1", resolution := some "144p" }

theorem findJob_updateJob_some {s : Store} {i : Nat} {g : GenerationJob}
    {f : GenerationJob → GenerationJob}
    (hfind : findJob s i = some g) (hfid : ∀ x, (f x).id = x.id) :
    findJob (updateJob s i f) i = some (f g) := by
  rw [findJob_updateJob hfid, hfind]
  simp [(findJob_mem hfind).2]

/-- C2: a valid submission that the provider accepts stores the returned
prediction id, sets the row to `processing`, answers 201 with the job id
and status `processing`; the stored row holds the submitted duration,
aspect ratio and resolution (defaults 5, 16:9, 720p when omitted), and the
provider is called exactly once with `fps` fixed at 24, `camera_fixed`
fixed at `false`, and the image reference when one was supplied. -/
theorem claim2_accepted_submission
    (o : ProviderOracle) (s : Store) (newId now : Nat) (r : GenerateRequest)
    (pred : Prediction)
    (hv : validationErrors r = [])
    (hfresh : findJob s newId = none)
    (hacc : o.create (buildReplicateInput (routeInputData r)) = .ok pred) :
    (generateHandler o s newId now r).2.1 = .created newId .processing
    ∧ (GenerateResponse.created newId .processing).httpStatus = 201
    ∧ (∃ g', findJob (generateHandler o s newId now r).1 newId = some g'
        ∧ g'.status = .processing
        ∧ g'.external_id = some pred.id
        ∧ g'.duration = (match r.duration with | none => 5 | some d => d)
        ∧ g'.aspect_ratio = (match r.aspect_ratio with | none => "16:9" | some a => a)
        ∧ g'.resolution = (match r.resolution with | none => "720p" | some v => v))
    ∧ (generateHandler o s newId now r).2.2 =
        [.create (buildReplicateInput (routeInputData r))]
    ∧ (buildReplicateInput (routeInputData r)).fps = 24
    ∧ (buildReplicateInput (routeInputData r)).camera_fixed = false
    ∧ (∀ img, r.image = some img → img ≠ "" →
        (buildReplicateInput (routeInputData r)).image = some img) := by
  have hgen := @generateHandler_accept o s newId now r pred hv hfresh hacc
  refine ⟨by rw [hgen], rfl, ?_, by rw [hgen], rfl, rfl, ?_⟩
  · rw [hgen]
    refine ⟨_, findJob_append_fresh hfresh rfl, rfl, rfl, ?_, ?_, ?_⟩
    · exact valid_duration hv
    · exact valid_aspect_ratio hv
    · exact valid_resolution hv
  · intro img himg hne
    simp [buildReplicateInput, routeInputData, himg, jsTruthyStr, hne]

/-- C2 witness: the valid request duration=10, aspect 9:16, 1080p against
an accepting provider yields a processing row with exactly those fields. -/
theorem claim2_accepted_submission_witness :
    ∃ g', findJob (generateHandler acceptOracle [] 1 0 reqValid).1 1 = some g'
      ∧ g'.status = .processing ∧ g'.external_id = some "pred-1"
      ∧ g'.duration = 10 ∧ g'.aspect_ratio = "9:16" ∧ g'.resolution = "1080p" := by
  have h := claim2_accepted_submission acceptOracle [] 1 0 reqValid
      { id := "pred-1", status := "starting", output := none, error := none }
      (by decide) rfl rfl
  obtain ⟨_, _, ⟨g', hfind, hst, hext, hdur, har, hres⟩, _⟩ := h
  exact ⟨g', hfind, hst, hext, hdur, har, hres⟩

/-- C3: a valid submission that the provider rejects keeps the created
row (one row was added), marks it failed with the thrown message (non-empty
when the error message is), and answers 500 with the detail. -/
theorem claim3_rejected_submission
    (o : ProviderOracle) (s : Store) (newId now : Nat) (r : GenerateRequest)
    (e : String)
    (hv : validationErrors r = [])
    (hfresh : findJob s newId = none)
    (hrej : o.create (buildReplicateInput (routeInputData r)) = .error e)
    (hne : e ≠ "") :
    (generateHandler o s newId now r).2.1 = .providerFailed e
    ∧ (GenerateResponse.providerFailed e).httpStatus = 500
    ∧ (generateHandler o s newId now r).1.length = s.length + 1
    ∧ ∃ g', findJob (generateHandler o s newId now r).1 newId = some g'
        ∧ g'.status = .failed ∧ g'.error_message = some e ∧ e ≠ "" := by
  have hgen := @generateHandler_reject o s newId now r e hv hfresh hrej
  refine ⟨by rw [hgen], rfl, by rw [hgen]; simp, ?_⟩
  rw [hgen]
  exact ⟨_, findJob_append_fresh hfresh rfl, rfl, rfl, hne⟩

/-- C3 witness: a throwing provider leaves a failed row with the thrown
message and the handler reports the provider failure. -/
theorem claim3_rejected_submission_witness :
    (generateHandler failOracle [] 1 0 reqValid).2.1 =
      .providerFailed "provider unreachable"
    ∧ ∃ g', findJob (generateHandler failOracle [] 1 0 reqValid).1 1 = some g'
        ∧ g'.status = .failed
        ∧ g'.error_message = some "provider unreachable" := by
  have h := claim3_rejected_submission failOracle [] 1 0 reqValid
      "provider unreachable" (by decide) rfl rfl (by decide)
  obtain ⟨h1, _, _, g', hf, hs, hm, _⟩ := h
  exact ⟨h1, g', hf, hs, hm⟩

/-- C7: an invalid submission is rejected with 400 and the complete list
of violations (validation does not stop at the first failing field), with
no row created and no provider call made. -/
theorem claim7_validation_rejects_completely
    (o : ProviderOracle) (s : Store) (newId now : Nat) (r : GenerateRequest)
    (hinv : validationErrors r ≠ []) :
    generateHandler o s newId now r = (s, .validationFailed (validationErrors r), [])
    ∧ (GenerateResponse.validationFailed (validationErrors r)).httpStatus = 400
    ∧ validationErrors r =
        promptErrors r ++ durationErrors r ++ aspectRatioErrors r ++ resolutionErrors r
    ∧ (∀ m ∈ promptErrors r, m ∈ validationErrors r)
    ∧ (∀ m ∈ durationErrors r, m ∈ validationErrors r)
    ∧ (∀ m ∈ aspectRatioErrors r, m ∈ validationErrors r)
    ∧ (∀ m ∈ resolutionErrors r, m ∈ validationErrors r) := by
  refine ⟨generateHandler_invalid hinv, rfl, rfl, ?_, ?_, ?_, ?_⟩ <;>
    · intro m hm
      unfold validationErrors
      simp [List.mem_append]
      tauto

/-- C7 witness: a request violating prompt, duration, aspect ratio and
resolution at once is rejected with all four messages and no side
effect. -/
theorem claim7_validation_rejects_completely_witness :
    validationErrors reqInvalid ≠ []
    ∧ generateHandler failOracle [] 1 0 reqInvalid =
        ([], .validationFailed (validationErrors reqInvalid), [])
    ∧ validationErrors reqInvalid =
        ["Prompt must be between 1 and 1000 characters",
         "Duration must be one of: 5, 10",
         "Aspect ratio must be one of: 16:9, 9:16, 1:1, 4:3, 3:4, 21:9, 9:21",
         "Resolution must be 480p, 720p, or 1080p"] := by
  refine ⟨by decide, ?_, by decide⟩
  exact (claim7_validation_rejects_completely failOracle [] 1 0 reqInvalid (by decide)).1

/-- C4: on a processing row with an external id, when the provider
reports success (with a truthy output URL), the status handler fetches the
media reference, updates the row to `completed` with that reference and the
full provider payload as `output_data`, and the response reflects status
`completed` and the media URL. -/
theorem claim4_reconcile_success
    (o : ProviderOracle) (s : Store) (i : Nat) (g : GenerationJob)
    (pred : Prediction) (url : String)
    (hfind : findJob s i = some g)
    (hproc : g.status = .processing)
    (hext : jsTruthyStr g.external_id = true)
    (hget : o.get (g.external_id.getD "") = .ok pred)
    (hsucc : pred.status = "succeeded")
    (hout : pred.output = some url)
    (hurl : url ≠ "") :
    statusHandler o s i =
      (updateJob s i (fun x =>
         { x with status := .completed, video_url := some url,
                  output_data := some pred }),
       rowProjection { g with status := .completed, video_url := some url },
       [.get (g.external_id.getD ""), .get (g.external_id.getD "")])
    ∧ (∃ g', findJob (statusHandler o s i).1 i = some g'
        ∧ g'.status = .completed ∧ g'.video_url = some url
        ∧ g'.output_data = some pred)
    ∧ (statusHandler o s i).2.1 =
        rowProjection { g with status := .completed, video_url := some url } := by
  have h := statusHandler_success hfind hproc hext hget hsucc hout hurl
  refine ⟨h, ?_, by rw [h]⟩
  rw [h]
  refine ⟨_, findJob_updateJob_some hfind ?_, rfl, rfl, rfl⟩
  intro x
  rfl

/-- C4 witness: the processing row against a provider reporting success
with URL https://x/video.mp4 ends completed with that URL. -/
theorem claim4_reconcile_success_witness :
    ∃ g', findJob (statusHandler acceptOracle [rowProcessing] 1).1 1 = some g'
      ∧ g'.status = .completed ∧ g'.video_url = some "https://x/video.mp4"
      ∧ g'.output_data = some { id := "pred-1", status := "succeeded",
                                output := some "https://x/video.mp4", error := none } := by
  have h := claim4_reconcile_success acceptOracle [rowProcessing] 1 rowProcessing
      { id := "pred-1", status := "succeeded",
        output := some "https://x/video.mp4", error := none }
      "https://x/video.mp4" (by decide) rfl (by decide) rfl rfl rfl (by decide)
  exact h.2.1

/-- C5: on a processing row with an external id, a thrown provider poll is
swallowed: the store is unchanged and the response is the last known row
projection (a 200, not an error). -/
theorem claim5_reconcile_soft_fail
    (o : ProviderOracle) (s : Store) (i : Nat) (g : GenerationJob) (e : String)
    (hfind : findJob s i = some g)
    (hproc : g.status = .processing)
    (hext : jsTruthyStr g.external_id = true)
    (herr : o.get (g.external_id.getD "") = .error e) :
    statusHandler o s i = (s, rowProjection g, [.get (g.external_id.getD "")])
    ∧ (rowProjection g).httpStatus = 200 := by
  exact ⟨statusHandler_provider_error hfind hproc hext herr, rfl⟩

/-- C5 witness: a processing row polled through a throwing provider is
returned unchanged. -/
theorem claim5_reconcile_soft_fail_witness :
    statusHandler failOracle [rowProcessing] 1 =
      ([rowProcessing], rowProjection rowProcessing, [.get "pred-1"]) := by
  exact (claim5_reconcile_soft_fail failOracle [rowProcessing] 1 rowProcessing
    "provider unreachable" (by decide) rfl (by decide) rfl).1

/-- C6: cancellation answers 404 on a missing row; 400 without mutation on
a row that is not processing; on a processing row it sets `cancelled`
unconditionally (for every provider outcome, a provider-side failure being
swallowed) and answers 200 with the job id and the new status. -/
theorem claim6_cancellation_contract (o : ProviderOracle) (s : Store) (i : Nat) :
    (findJob s i = none →
      cancelHandler o s i = (s, .notFound, [])
      ∧ CancelResponse.notFound.httpStatus = 404)
    ∧ (∀ g, findJob s i = some g → g.status ≠ .processing →
      cancelHandler o s i = (s, .conflict, [])
      ∧ CancelResponse.conflict.httpStatus = 400)
    ∧ (∀ g, findJob s i = some g → g.status = .processing →
      (cancelHandler o s i).1 = updateJob s i (fun x => { x with status := .cancelled })
      ∧ (cancelHandler o s i).2.1 = .ok i .cancelled
      ∧ (CancelResponse.ok i .cancelled).httpStatus = 200
      ∧ ∃ g', findJob (cancelHandler o s i).1 i = some g' ∧ g'.status = .cancelled) := by
  refine ⟨fun h => ⟨cancelHandler_not_found h, rfl⟩,
          fun g hfind hnp => ⟨cancelHandler_conflict hfind hnp, rfl⟩,
          fun g hfind hp => ?_⟩
  obtain ⟨h1, h2⟩ := cancelHandler_processing hfind hp
  refine ⟨h1, h2, rfl, ?_⟩
  rw [h1]
  refine ⟨_, findJob_updateJob_some hfind ?_, rfl⟩
  intro x
  rfl

/-- C6 witness: cancelling the processing row through a provider whose
cancel call throws still cancels locally and answers 200. -/
theorem claim6_cancellation_contract_witness :
    (cancelHandler failOracle [rowProcessing] 1).2.1 = .ok 1 .cancelled
    ∧ ∃ g', findJob (cancelHandler failOracle [rowProcessing] 1).1 1 = some g'
        ∧ g'.status = .cancelled := by
  have h := (claim6_cancellation_contract failOracle [rowProcessing] 1).2.2
      rowProcessing (by decide) rfl
  exact ⟨h.2.1, h.2.2.2⟩

/-- C10: deleting an existing job succeeds for every status (including
`processing`), removes the row, answers 200 with the job id, and makes no
provider call. -/
theorem claim10_delete_any_status (s : Store) (i : Nat) (g : GenerationJob)
    (hfind : findJob s i = some g) :
    deleteHandler s i = (deleteJob s i, .ok i, [])
    ∧ (DeleteResponse.ok i).httpStatus = 200
    ∧ findJob (deleteJob s i) i = none := by
  refine ⟨deleteHandler_found hfind, rfl, ?_⟩
  rw [findJob_eq_none_iff]
  intro g' hg'
  exact (mem_deleteJob hg').2

/-- C10 witness: deleting the in-flight processing row removes it and
answers 200 without touching the provider. -/
theorem claim10_delete_any_status_witness :
    deleteHandler [rowProcessing] 1 = (deleteJob [rowProcessing] 1, .ok 1, [])
    ∧ findJob (deleteJob [rowProcessing] 1) 1 = none := by
  have h := claim10_delete_any_status [rowProcessing] 1 rowProcessing (by decide)
  exact ⟨h.1, h.2.2⟩

/-- C1: a stored job whose status is not `processing`, or whose external
correlation id is not set, is returned verbatim by GET /status with no
provider call; consequently a job in a terminal state (completed, failed
or cancelled) is never changed by a reconciliation poll, its cancellation
is rejected with a 400 conflict, and no public operation moves it out of
its terminal status. -/
theorem claim1_terminal_state_monotonic
    (o : ProviderOracle) (s : Store) (i : Nat) (g : GenerationJob)
    (hN : (s.map (fun x => x.id)).Nodup)
    (hfind : findJob s i = some g) :
    ((g.status ≠ .processing ∨ jsTruthyStr g.external_id = false) →
      statusHandler o s i = (s, rowProjection g, []))
    ∧ (terminalStatus g.status →
      statusHandler o s i = (s, rowProjection g, [])
      ∧ cancelHandler o s i = (s, .conflict, [])
      ∧ CancelResponse.conflict.httpStatus = 400
      ∧ (∀ op, FreshFor s op → ∀ g' ∈ stepOp s op, g'.id = i → g'.status = g.status)) := by
  have hterm_np : terminalStatus g.status → g.status ≠ .processing := by
    intro ht
    rcases ht with h | h | h <;> simp [h]
  refine ⟨fun h => statusHandler_no_call hfind h, fun ht => ?_⟩
  have hnp := hterm_np ht
  refine ⟨statusHandler_no_call hfind (Or.inl hnp),
          cancelHandler_conflict hfind hnp, rfl, ?_⟩
  intro op hop g' hg' hid
  rw [stepOp_frozen hN hfind hnp hop g' hg' hid]

/-- C1 witness: a completed row is returned verbatim by GET /status and
its cancellation is rejected with a conflict. -/
theorem claim1_terminal_state_monotonic_witness :
    statusHandler failOracle [rowCompleted] 1 =
      ([rowCompleted], rowProjection rowCompleted, [])
    ∧ cancelHandler failOracle [rowCompleted] 1 = ([rowCompleted], .conflict, []) := by
  have h := claim1_terminal_state_monotonic failOracle [rowCompleted] 1 rowCompleted
      (by decide) (by decide)
  have h2 := h.2 (Or.inl rfl)
  exact ⟨h2.1, h2.2.1⟩

/-- C8: in every reachable store a non-null external id means the row has
left `pending`, and the statuses only reachable through successful provider
acceptance (processing, completed, cancelled) always carry one; moreover
the row created at submission is pending with a null external id, provider
acceptance writes the external id together with the `processing`
transition, and a submission-time failure leaves the external id null on
the failed row. -/
theorem claim8_external_id_iff_left_pending :
    (∀ s, Reachable s →
      ∀ g ∈ s, (g.external_id.isSome = true → g.status ≠ .pending)
        ∧ ((g.status = .processing ∨ g.status = .completed ∨ g.status = .cancelled) →
           g.external_id.isSome = true))
    ∧ (∀ (newId : Nat) (prompt : String) (image : Option String)
         (dur : Option Nat) (ar rl : Option String) (now : Nat),
        (mkPendingRow newId prompt image dur ar rl now).status = .pending
        ∧ (mkPendingRow newId prompt image dur ar rl now).external_id = none)
    ∧ (∀ (o : ProviderOracle) (s : Store) (newId now : Nat)
         (r : GenerateRequest) (pred : Prediction),
        validationErrors r = [] → findJob s newId = none →
        o.create (buildReplicateInput (routeInputData r)) = .ok pred →
        ∃ g', findJob (generateHandler o s newId now r).1 newId = some g'
          ∧ g'.status = .processing ∧ g'.external_id = some pred.id)
    ∧ (∀ (o : ProviderOracle) (s : Store) (newId now : Nat)
         (r : GenerateRequest) (e : String),
        validationErrors r = [] → findJob s newId = none →
        o.create (buildReplicateInput (routeInputData r)) = .error e →
        ∃ g', findJob (generateHandler o s newId now r).1 newId = some g'
          ∧ g'.status = .failed ∧ g'.external_id = none) := by
  refine ⟨?_, ?_, ?_, ?_⟩
  · intro s hs g hg
    exact (reachable_StoreInv hs).2 g hg
  · intro newId prompt image dur ar rl now
    exact ⟨rfl, rfl⟩
  · intro o s newId now r pred hv hfresh hacc
    have hgen := @generateHandler_accept o s newId now r pred hv hfresh hacc
    rw [hgen]
    exact ⟨_, findJob_append_fresh hfresh rfl, rfl, rfl⟩
  · intro o s newId now r e hv hfresh hrej
    have hgen := @generateHandler_reject o s newId now r e hv hfresh hrej
    rw [hgen]
    exact ⟨_, findJob_append_fresh hfresh rfl, rfl, rfl⟩

/-- C8 witness: the invariant instantiated on the store reached by one
accepted submission from the empty table, whose row is processing with the
returned prediction id; a rejecting provider leaves a failed row with a
null external id. -/
theorem claim8_external_id_iff_left_pending_witness :
    (∀ g ∈ stepOp [] (Op.generate acceptOracle 1 0 reqValid),
      (g.external_id.isSome = true → g.status ≠ .pending)
      ∧ ((g.status = .processing ∨ g.status = .completed ∨ g.status = .cancelled) →
         g.external_id.isSome = true))
    ∧ (∃ g', findJob (generateHandler acceptOracle [] 1 0 reqValid).1 1 = some g'
        ∧ g'.status = .processing ∧ g'.external_id = some "pred-1")
    ∧ (∃ g', findJob (generateHandler failOracle [] 1 0 reqValid).1 1 = some g'
        ∧ g'.status = .failed ∧ g'.external_id = none) := by
  have hreach : Reachable (stepOp [] (Op.generate acceptOracle 1 0 reqValid)) :=
    Reachable.step [] (Op.generate acceptOracle 1 0 reqValid) Reachable.init rfl
  refine ⟨claim8_external_id_iff_left_pending.1 _ hreach, ?_, ?_⟩
  · exact claim8_external_id_iff_left_pending.2.2.1 acceptOracle [] 1 0 reqValid
      { id := "pred-1", status := "starting", output := none, error := none }
      (by decide) rfl rfl
  · exact claim8_external_id_iff_left_pending.2.2.2 failOracle [] 1 0 reqValid
      "provider unreachable" (by decide) rfl rfl

/-- A 30-row table with strictly descending creation times, used as
concrete input for the pagination claim. -/
def sampleTable : Store :=
  (List.range 30).map (fun k =>
    { id := k, prompt := "p", image_url := none, duration := 5,
      aspect_ratio := "16:9", resolution := "720p", status := .completed,
      external_id := some "x", video_url := none, thumbnail_url := none,
      error_message := none, output_data := none,
      created_at := 100 - k, updated_at := 0 })

/-- C9: at the concrete request GET /list?page=2&limit=10 on a 30-row
table the claim fails. Express delivers the query values as strings, so in
`.range(offset, offset + limit - 1)` the inner `+` concatenates
(`String(10) + "10"` is `"1010"`) and the inclusive range becomes
[10, 1009]: the handler returns the 20 remaining rows, not the 10 rows at
positions 10 through 19 required by the claim, even though the metadata
still reports 10-row pages (pages = 3 of limit 10). -/
theorem claim9_pagination_counterexample :
    rangeTo ((pageNum (some "2") - 1) * limitNum (some "10")) (some "10") = 1009
    ∧ (listHandler sampleTable (some "2") (some "10")).generations.length = 20
    ∧ (listHandler sampleTable (some "2") (some "10")).generations.length ≠ 10
    ∧ (listHandler sampleTable (some "2") (some "10")).page = 2
    ∧ (listHandler sampleTable (some "2") (some "10")).limit = 10
    ∧ (listHandler sampleTable (some "2") (some "10")).total = 30
    ∧ (listHandler sampleTable (some "2") (some "10")).pages = 3 := by
  have hsort : sortedJobs sampleTable = sampleTable :=
    List.mergeSort_of_sorted (by decide)
  have hl : listHandler sampleTable (some "2") (some "10") =
      { generations := sampleTable.drop 10, page := 2, limit := 10,
        total := 30, pages := 3 } := by
    simp only [listHandler, hsort]
    decide
  rw [hl]
  refine ⟨by decide, by decide, by decide, rfl, rfl, rfl, rfl⟩

end VideoGen
